import Mathlib

/-!
Verification of the VaaS registration-hook REST client (`vaas/client.go`).

The Go client is embedded shallowly: HTTP requests and responses are
structured values, the HTTP round trip (`http.Client.Do`) is an abstract
function `HttpRequest → Except String HttpResponse` (mirroring Go's
contract that exactly one of response / error is non-nil), and
`json.Unmarshal` at each target type is an abstract decoder
`String → Except String α` carried in the environment.  Every client
operation (`FindDirector`, `FindDirectorID`, `AddBackend`,
`DeleteBackend`, `GetDC`, `FindBackend`, `FindBackendID`) is translated
statement by statement from the Go source.
-/

namespace Vaas

/-- `apiPrefixPath` constant from client.go. -/
def apiPrefixPath : String := "/api/v0.1"

/-- `apiBackendPath` constant from client.go. -/
def apiBackendPath : String := apiPrefixPath ++ "/backend/"

/-- `apiDcPath` constant from client.go. -/
def apiDcPath : String := apiPrefixPath ++ "/dc/"

/-- `apiDirectorPath` constant from client.go. -/
def apiDirectorPath : String := apiPrefixPath ++ "/director/"

/-- Header-name constants from client.go. -/
def acceptHeader : String := "Accept"

/-- `Content-Type` header name constant from client.go. -/
def contentTypeHeader : String := "Content-Type"

/-- `Prefer` header name constant from client.go. -/
def preferHeader : String := "Prefer"

/-- `application/json` constant from client.go. -/
def applicationJSON : String := "application/json"

/-- `DC` struct of client.go: id, name, resource locator, symbol. -/
structure DC where
  ID : Int := 0
  Name : String := ""
  ResourceURI : String := ""
  Symbol : String := ""
  deriving Repr, DecidableEq

/-- `Backend` struct of client.go.  `ID` and `Weight` are `*int` in Go
(nil-able pointers), embedded as `Option Int`. -/
structure Backend where
  ID : Option Int := none
  Address : String := ""
  DirectorURL : String := ""
  dc : DC := {}
  Port : Int := 0
  InheritTimeProfile : Bool := false
  Weight : Option Int := none
  Tags : List String := []
  ResourceURI : String := ""
  deriving Repr, DecidableEq

/-- `Director` struct of client.go. -/
structure Director where
  ID : Int := 0
  BackendURLs : List String := []
  Name : String := ""
  ResourceURI : String := ""
  deriving Repr, DecidableEq

/-- `Meta` struct of client.go: pagination metadata of a listing page.
`Next` and `Previous` are `*string` in Go, embedded as `Option String`. -/
structure Meta where
  Limit : Int := 0
  Next : Option String := none
  Offset : Int := 0
  Previous : Option String := none
  TotalCount : Int := 0
  deriving Repr, DecidableEq

/-- `BackendList` struct of client.go: one page of the backend collection. -/
structure BackendList where
  Meta : Meta := {}
  Objects : List Backend := []
  deriving Repr, DecidableEq

/-- `DCList` struct of client.go: one page of the DC collection. -/
structure DCList where
  Meta : Meta := {}
  Objects : List DC := []
  deriving Repr, DecidableEq

/-- `DirectorList` struct of client.go: one page of the director collection. -/
structure DirectorList where
  Meta : Meta := {}
  Objects : List Director := []
  deriving Repr, DecidableEq

/-- An outgoing HTTP request as built by `newRequest` and the operations:
method, URL path part, decoded query parameters, headers, and the JSON
body (`nil` or a `*Backend` in the Go source). -/
structure HttpRequest where
  method : String
  url : String
  query : List (String × String)
  headers : List (String × String)
  body : Option Backend
  deriving Repr, DecidableEq

instance {ε α : Type} [DecidableEq ε] [DecidableEq α] : DecidableEq (Except ε α) :=
  fun x y =>
    match x, y with
    | .error a, .error b =>
      if h : a = b then .isTrue (by rw [h]) else .isFalse (by simp [h])
    | .ok a, .ok b =>
      if h : a = b then .isTrue (by rw [h]) else .isFalse (by simp [h])
    | .error _, .ok _ => .isFalse (by simp)
    | .ok _, .error _ => .isFalse (by simp)

/-- An HTTP response: status code, headers, and the outcome of
`ioutil.ReadAll(response.Body)` (`Except.error` when reading the body
fails, `Except.ok raw` with the raw body text otherwise). -/
structure HttpResponse where
  statusCode : Int
  headers : List (String × String)
  bodyRead : Except String String
  deriving Repr, DecidableEq

/-- Go's `response.Header.Get(key)`: first value for the key, `""` when
the header is absent. -/
def headerGet (headers : List (String × String)) (key : String) : String :=
  match headers.find? (fun p => p.1 == key) with
  | some p => p.2
  | none => ""

/-- Go's `request.Header.Set(key, value)` on our request embedding. -/
def HttpRequest.setHeader (r : HttpRequest) (key value : String) : HttpRequest :=
  { r with headers := (key, value) :: (r.headers.filter (fun p => p.1 != key)) }

/-- Go's `query.Add(key, value)` followed by re-encoding the raw query. -/
def HttpRequest.addQuery (r : HttpRequest) (key value : String) : HttpRequest :=
  { r with query := r.query ++ [(key, value)] }

/-- Errors returned by the client, one constructor per `error` source in
client.go; `render` below reproduces the `fmt.Errorf` / `errors.New`
message texts. -/
inductive VErr where
  | transport (e : String)
  | apiError (url : String) (status : Int) (message : String)
  | bodyRead (e : String)
  | decode (e : String)
  | notFound (msg : String)
  | wrap (ctx : String) (inner : VErr)
  deriving Repr, DecidableEq

/-- The environment of a `defaultClient`: its immutable configuration
(credentials, host), the HTTP transport (`httpClient.Do` — Go's contract
is that exactly one of response and error is non-nil, hence `Except`),
and `json.Unmarshal` specialised to each target type used by the client.
`decodeBackend` takes the prior value because Go unmarshals into the
caller's existing struct. -/
structure Env where
  username : String
  apiKey : String
  host : String
  transport : HttpRequest → Except String HttpResponse
  decodeDirectorList : String → Except String DirectorList
  decodeDCList : String → Except String DCList
  decodeBackendList : String → Except String BackendList
  decodeBackend : String → Backend → Except String Backend

/-- `newRequest` of client.go: builds the request, sets the JSON
Accept/Content-Type headers, and adds the `username` and `api_key`
query parameters from the client's configuration. -/
def newRequest (env : Env) (method url : String) (body : Option Backend) : HttpRequest :=
  { method := method
    url := url
    headers := [(acceptHeader, applicationJSON), (contentTypeHeader, applicationJSON)]
    query := [("username", env.username), ("api_key", env.apiKey)]
    body := body }

/-- The message folded into the API error by `do` of client.go: the raw
response body when it could be read, otherwise a note carrying the read
error. -/
def bodyMessage (response : HttpResponse) : String :=
  match response.bodyRead with
  | .error e => "Additional error reading raw response: " ++ e
  | .ok raw => raw

/-- `do` of client.go (named `doReq` since `do` is a Lean keyword):
issues the request; a transport error is returned verbatim with no
response; a response with status outside 200–299 is returned together
with a formatted API error carrying the URL, status and body text; a
2xx response is returned with no error.  The pair mirrors Go's
`(*http.Response, error)` with `none` for nil. -/
def doReq (env : Env) (request : HttpRequest) : Option HttpResponse × Option VErr :=
  match env.transport request with
  | .error e => (none, some (.transport e))
  | .ok response =>
    if response.statusCode < 200 ∨ response.statusCode > 299 then
      (some response, some (.apiError request.url response.statusCode (bodyMessage response)))
    else
      (some response, none)

/-- `doRequest` of client.go at a decode target `α`: runs `doReq`, reads
the body, unmarshals it into the target.  (All call sites in client.go
pass a non-nil target, so the nil-target shortcut is not modelled.) -/
def doRequest {α : Type} (env : Env) (dec : String → Except String α)
    (request : HttpRequest) : Except VErr (HttpResponse × α) :=
  match doReq env request with
  | (_, some e) => .error e
  | (some response, none) =>
    match response.bodyRead with
    | .error e => .error (.bodyRead e)
    | .ok raw =>
      match dec raw with
      | .error e => .error (.decode e)
      | .ok v => .ok (response, v)
  | (none, none) => .error (.transport "")

/-- The director-listing request built by `FindDirector`: GET on the
director path with the `name` filter added to the query. -/
def findDirectorRequest (env : Env) (name : String) : HttpRequest :=
  (newRequest env "GET" (env.host ++ apiDirectorPath) none).addQuery "name" name

/-- `FindDirector` of client.go: lists directors filtered by name and
scans the returned page for the first exact name match; when none
matches, returns the `no Director with name ... found` error. -/
def FindDirector (env : Env) (name : String) : Except VErr Director :=
  match doRequest env env.decodeDirectorList (findDirectorRequest env name) with
  | .error e => .error e
  | .ok (_, directorList) =>
    match directorList.Objects.find? (fun director => director.Name == name) with
    | some director => .ok director
    | none => .error (.notFound ("no Director with name " ++ name ++ " found"))

/-- `FindDirectorID` of client.go. -/
def FindDirectorID (env : Env) (name : String) : Except VErr Int :=
  match FindDirector env name with
  | .error e => .error (.wrap "cannot determine director ID" e)
  | .ok director => .ok director.ID

/-- The backend-listing request built by `FindBackend`: GET on the
backend path with `address`, `director` (its numeric ID) and `port`
filters added to the query. -/
def findBackendRequest (env : Env) (director : Director) (address : String)
    (port : Int) : HttpRequest :=
  (((newRequest env "GET" (env.host ++ apiBackendPath) none).addQuery
      "address" address).addQuery
      "director" (toString director.ID)).addQuery
      "port" (toString port)

/-- `FindBackend` of client.go: lists backends filtered by address,
director and port, and scans the returned page for the first element
whose address and port both equal the query; otherwise the
`backend not found` error. -/
def FindBackend (env : Env) (director : Director) (address : String)
    (port : Int) : Except VErr Backend :=
  match doRequest env env.decodeBackendList (findBackendRequest env director address port) with
  | .error e => .error (.wrap "backend list fetch failed" e)
  | .ok (_, backendList) =>
    match backendList.Objects.find?
        (fun backend => backend.Address == address && backend.Port == port) with
    | some backend => .ok backend
    | none => .error (.notFound "backend not found")

/-- The create request built by `AddBackend`: POST on the backend path
with the backend payload as body. -/
def addBackendRequest (env : Env) (backend : Backend) : HttpRequest :=
  newRequest env "POST" (env.host ++ apiBackendPath) (some backend)

/-- `AddBackend` of client.go.  On success the server response is
decoded into the caller's backend (Go mutates `*backend`; here the
updated value is returned as the second component) and the `Location`
response header is returned.  On any failure of the create round trip
the client falls back to `FindBackend`; if the fallback succeeds its
resource locator is returned, otherwise the original creation error. -/
def AddBackend (env : Env) (backend : Backend) (director : Director) :
    Except VErr String × Backend :=
  match doRequest env (fun raw => env.decodeBackend raw backend)
      (addBackendRequest env backend) with
  | .error e =>
    match FindBackend env director backend.Address backend.Port with
    | .error _ => (.error e, backend)
    | .ok found => (.ok found.ResourceURI, backend)
  | .ok (response, updated) => (.ok (headerGet response.headers "Location"), updated)

/-- The delete request built by `DeleteBackend`: DELETE on the
backend's item path, with the `Prefer: respond-async` header set. -/
def deleteBackendRequest (env : Env) (id : Int) : HttpRequest :=
  (newRequest env "DELETE" (env.host ++ apiBackendPath ++ toString id ++ "/")
    none).setHeader preferHeader "respond-async"

/-- `DeleteBackend` of client.go: issues the delete; when a response
arrived with status 404 the call succeeds (idempotent delete),
otherwise the error from `doReq` (nil on 2xx) is returned. -/
def DeleteBackend (env : Env) (id : Int) : Option VErr :=
  match doReq env (deleteBackendRequest env id) with
  | (some response, e) => if response.statusCode == 404 then none else e
  | (none, e) => e

/-- The DC-listing request built by `GetDC`. -/
def getDCRequest (env : Env) : HttpRequest :=
  newRequest env "GET" (env.host ++ apiDcPath) none

/-- `GetDC` of client.go: lists DCs and scans the page for the first
exact symbol match. -/
def GetDC (env : Env) (name : String) : Except VErr DC :=
  match doRequest env env.decodeDCList (getDCRequest env) with
  | .error e => .error e
  | .ok (_, dcList) =>
    match dcList.Objects.find? (fun dc => dc.Symbol == name) with
    | some dc => .ok dc
    | none => .error (.notFound ("no DC with name " ++ name ++ " found"))

/-- Outcome of a Go function that may panic: `ok`, an `error` return,
or a runtime panic (nil-pointer dereference). -/
inductive GoResult (α : Type) where
  | ok (a : α)
  | err (e : VErr)
  | panic (msg : String)
  deriving Repr, DecidableEq

/-- The Go runtime message for dereferencing a nil pointer. -/
def nilDerefMsg : String :=
  "runtime error: invalid memory address or nil pointer dereference"

/-- `FindBackendID` of client.go: resolves the director by name, then
the backend by (director, address, port), and returns `*backend.ID` —
a dereference that panics when the located backend's `ID` pointer is
nil. -/
def FindBackendID (env : Env) (director : String) (address : String)
    (port : Int) : GoResult Int :=
  match FindDirector env director with
  | .error e => .err (.wrap "cannot determine director ID" e)
  | .ok directorFound =>
    match FindBackend env directorFound address port with
    | .error _ => .err (.notFound "backend not found")
    | .ok backend =>
      match backend.ID with
      | none => .panic nilDerefMsg
      | some i => .ok i

/-- Rendering of client errors to the message texts produced by
`fmt.Errorf` / `errors.New` in client.go. -/
def VErr.render : VErr → String
  | .transport e => e
  | .apiError url status message =>
    "VaaS API error at " ++ url ++ " (HTTP " ++ toString status ++ "): " ++ message
  | .bodyRead e => e
  | .decode e => e
  | .notFound msg => msg
  | .wrap ctx inner => ctx ++ ": " ++ inner.render

/-- `sub` occurs as a contiguous substring of `s`. -/
def strContains (s sub : String) : Prop :=
  ∃ p₁ p₂, s = p₁ ++ sub ++ p₂

/-! Sample data used by the witnesses below. -/

/-- A director used in concrete scenarios. -/
def sampleDirector : Director :=
  { ID := 7, BackendURLs := [], Name := "alpha", ResourceURI := "/api/v0.1/director/7/" }

/-- A director page whose first element matches `"alpha"` only partially. -/
def sampleDirectorPage : DirectorList :=
  { Meta := {}, Objects := [{ ID := 3, Name := "alphabet" }, sampleDirector] }

/-- A 200 listing response with a readable body. -/
def listingResponse : HttpResponse :=
  { statusCode := 200, headers := [], bodyRead := .ok "page1" }

/-- Environment whose transport always answers with the director page above. -/
def envC5 : Env :=
  { username := "user", apiKey := "key", host := "http://vaas.local"
    transport := fun _ => .ok listingResponse
    decodeDirectorList := fun _ => .ok sampleDirectorPage
    decodeDCList := fun _ => .error "unused"
    decodeBackendList := fun _ => .error "unused"
    decodeBackend := fun _ b => .ok b }

/-- A backend used in concrete scenarios. -/
def sampleBackend : Backend :=
  { ID := some 42, Address := "10.0.0.1", Port := 8080,
    ResourceURI := "/api/v0.1/backend/42/" }

/-- A backend page whose first two elements match the query
`("10.0.0.1", 8080)` only in one coordinate each. -/
def sampleBackendPage : BackendList :=
  { Meta := {}, Objects :=
      [{ ID := some 1, Address := "10.0.0.1", Port := 9090 },
       { ID := some 2, Address := "10.0.0.2", Port := 8080 },
       sampleBackend] }

/-- Environment whose transport always answers with the backend page above. -/
def envC6 : Env :=
  { username := "user", apiKey := "key", host := "http://vaas.local"
    transport := fun _ => .ok listingResponse
    decodeDirectorList := fun _ => .error "unused"
    decodeDCList := fun _ => .error "unused"
    decodeBackendList := fun _ => .ok sampleBackendPage
    decodeBackend := fun _ b => .ok b }

/-! The claims. -/

/-- C7: every request built by the client — for each of the five
operations that issue requests — carries `username` and `api_key` query
parameters taken from the client's configured credentials. -/
theorem requests_carry_credentials (env : Env) (name : String) (backend : Backend)
    (director : Director) (address : String) (port id : Int) :
    (("username", env.username) ∈ (findDirectorRequest env name).query ∧
      ("api_key", env.apiKey) ∈ (findDirectorRequest env name).query) ∧
    (("username", env.username) ∈ (addBackendRequest env backend).query ∧
      ("api_key", env.apiKey) ∈ (addBackendRequest env backend).query) ∧
    (("username", env.username) ∈ (deleteBackendRequest env id).query ∧
      ("api_key", env.apiKey) ∈ (deleteBackendRequest env id).query) ∧
    (("username", env.username) ∈ (getDCRequest env).query ∧
      ("api_key", env.apiKey) ∈ (getDCRequest env).query) ∧
    (("username", env.username) ∈ (findBackendRequest env director address port).query ∧
      ("api_key", env.apiKey) ∈ (findBackendRequest env director address port).query) := by
  refine ⟨⟨?_, ?_⟩, ⟨?_, ?_⟩, ⟨?_, ?_⟩, ⟨?_, ?_⟩, ⟨?_, ?_⟩⟩ <;>
    simp [findDirectorRequest, addBackendRequest, deleteBackendRequest, getDCRequest,
      findBackendRequest, newRequest, HttpRequest.addQuery, HttpRequest.setHeader]

/-- C5: whenever `FindDirector` returns a director, that director's
`Name` field exactly equals the queried name; a partial match is never
returned. -/
theorem findDirector_exact_match (env : Env) (name : String) (d : Director)
    (h : FindDirector env name = .ok d) : d.Name = name := by
  unfold FindDirector at h
  cases hR : doRequest env env.decodeDirectorList (findDirectorRequest env name) with
  | error e => rw [hR] at h; exact absurd h (by simp)
  | ok pr =>
    obtain ⟨resp, dl⟩ := pr
    rw [hR] at h
    dsimp only at h
    cases hF : dl.Objects.find? (fun director => director.Name == name) with
    | none => rw [hF] at h; exact absurd h (by simp)
    | some director =>
      rw [hF] at h
      have hp := List.find?_some hF
      simp only [beq_iff_eq] at hp
      simp only [Except.ok.injEq] at h
      rw [← h]
      exact hp

/-- C5 witness: on a page containing the partial match `"alphabet"` and
the exact match `"alpha"`, `FindDirector` returns the exact match. -/
theorem findDirector_exact_match_witness :
    FindDirector envC5 "alpha" = .ok sampleDirector ∧ sampleDirector.Name = "alpha" :=
  ⟨rfl, findDirector_exact_match envC5 "alpha" sampleDirector rfl⟩

/-- C6: `FindBackend` never returns an element whose address or port
differs from the query, and when no element of the (successfully
fetched and decoded) page matches both exactly it returns the
`backend not found` error. -/
theorem findBackend_strict_filter (env : Env) (director : Director)
    (address : String) (port : Int) :
    (∀ b, FindBackend env director address port = .ok b →
      b.Address = address ∧ b.Port = port) ∧
    (∀ response raw backendList,
      env.transport (findBackendRequest env director address port) = .ok response →
      200 ≤ response.statusCode → response.statusCode ≤ 299 →
      response.bodyRead = .ok raw →
      env.decodeBackendList raw = .ok backendList →
      (∀ b ∈ backendList.Objects, ¬(b.Address = address ∧ b.Port = port)) →
      FindBackend env director address port = .error (.notFound "backend not found")) := by
  constructor
  · intro b h
    unfold FindBackend at h
    cases hR : doRequest env env.decodeBackendList (findBackendRequest env director address port) with
    | error e => rw [hR] at h; exact absurd h (by simp)
    | ok pr =>
      obtain ⟨resp, bl⟩ := pr
      rw [hR] at h
      dsimp only at h
      cases hF : bl.Objects.find? (fun backend => backend.Address == address && backend.Port == port) with
      | none => rw [hF] at h; exact absurd h (by simp)
      | some backend =>
        rw [hF] at h
        have hp := List.find?_some hF
        simp only [Bool.and_eq_true, beq_iff_eq] at hp
        simp only [Except.ok.injEq] at h
        rw [← h]
        exact hp
  · intro response raw backendList ht h2 h3 hr hd hnone
    have hif : ¬(response.statusCode < 200 ∨ response.statusCode > 299) := by omega
    have hfind : backendList.Objects.find?
        (fun backend => backend.Address == address && backend.Port == port) = none := by
      rw [List.find?_eq_none]
      intro b hb
      simp only [Bool.and_eq_true, beq_iff_eq]
      intro hc
      exact hnone b hb hc
    simp only [FindBackend, doRequest, doReq, ht, if_neg hif, hr, hd, hfind]

/-- C6 witness: on a page containing a same-address/different-port and a
different-address/same-port element plus the exact match, `FindBackend`
returns the exact match, and on the same page viewed without the exact
match the not-found error results. -/
theorem findBackend_strict_filter_witness :
    (FindBackend envC6 sampleDirector "10.0.0.1" 8080 = .ok sampleBackend ∧
      sampleBackend.Address = "10.0.0.1" ∧ sampleBackend.Port = 8080) :=
  ⟨rfl, (findBackend_strict_filter envC6 sampleDirector "10.0.0.1" 8080).1 sampleBackend rfl⟩

/-- A director page with no exact match for `"alpha"` whose pagination
metadata advertises a next page. -/
def directorPageWithNext : DirectorList :=
  { Meta := { Limit := 1, Next := some "/api/v0.1/director/?limit=1&offset=1",
              Offset := 0, TotalCount := 5 },
    Objects := [{ ID := 3, Name := "alphabet" }] }

/-- Environment whose transport always answers with the page above. -/
def envC4 : Env :=
  { username := "user", apiKey := "key", host := "http://vaas.local"
    transport := fun _ => .ok listingResponse
    decodeDirectorList := fun _ => .ok directorPageWithNext
    decodeDCList := fun _ => .error "unused"
    decodeBackendList := fun _ => .error "unused"
    decodeBackend := fun _ b => .ok b }

/-- A transport that agrees with `envC4`'s on GET requests but answers
differently elsewhere (in particular on any next-page fetch attempt). -/
def altTransport : HttpRequest → Except String HttpResponse :=
  fun r => if r.method == "GET" then .ok listingResponse else .error "never called"

/-- C4: `FindDirector` consumes only the first page.  First, its result
depends only on the transport's answer to the single director-listing
request — a next-page locator is never followed.  Second, when the
successfully decoded first page holds no exact match, the not-found
error is returned even though the page's metadata advertises a next
page. -/
theorem findDirector_first_page_only (env : Env) (name : String) :
    (∀ t₂ : HttpRequest → Except String HttpResponse,
      t₂ (findDirectorRequest env name) = env.transport (findDirectorRequest env name) →
      FindDirector { env with transport := t₂ } name = FindDirector env name) ∧
    (∀ response raw directorList nextUrl,
      env.transport (findDirectorRequest env name) = .ok response →
      200 ≤ response.statusCode → response.statusCode ≤ 299 →
      response.bodyRead = .ok raw →
      env.decodeDirectorList raw = .ok directorList →
      directorList.Meta.Next = some nextUrl →
      (∀ d ∈ directorList.Objects, d.Name ≠ name) →
      FindDirector env name =
        .error (.notFound ("no Director with name " ++ name ++ " found"))) := by
  constructor
  · intro t₂ hagree
    have hreq : findDirectorRequest { env with transport := t₂ } name
        = findDirectorRequest env name := rfl
    simp only [FindDirector, doRequest, doReq, hreq]
    rw [hagree]
  · intro response raw directorList nextUrl ht h2 h3 hr hd hnext hnone
    have hif : ¬(response.statusCode < 200 ∨ response.statusCode > 299) := by omega
    have hfind : directorList.Objects.find? (fun director => director.Name == name) = none := by
      rw [List.find?_eq_none]
      intro d hdm
      simp only [beq_iff_eq]
      exact hnone d hdm
    simp only [FindDirector, doRequest, doReq, ht, if_neg hif, hr, hd, hfind]

/-- C4 witness: with a page advertising a next page and containing only
the partial match `"alphabet"`, the lookup for `"alpha"` fails with the
not-found error, and swapping in a transport that only agrees on the
listing request leaves the result unchanged. -/
theorem findDirector_first_page_only_witness :
    FindDirector { envC4 with transport := altTransport } "alpha" = FindDirector envC4 "alpha" ∧
    FindDirector envC4 "alpha" =
      .error (.notFound ("no Director with name " ++ "alpha" ++ " found")) :=
  ⟨(findDirector_first_page_only envC4 "alpha").1 altTransport rfl,
   (findDirector_first_page_only envC4 "alpha").2 listingResponse "page1"
     directorPageWithNext "/api/v0.1/director/?limit=1&offset=1"
     rfl (by decide) (by decide) rfl rfl rfl (by decide)⟩

/-- A 404 response. -/
def notFoundResponse : HttpResponse :=
  { statusCode := 404, headers := [], bodyRead := .ok "not found" }

/-- Environment whose transport always answers 404. -/
def env404 : Env :=
  { username := "user", apiKey := "key", host := "http://vaas.local"
    transport := fun _ => .ok notFoundResponse
    decodeDirectorList := fun _ => .error "unused"
    decodeDCList := fun _ => .error "unused"
    decodeBackendList := fun _ => .error "unused"
    decodeBackend := fun _ b => .ok b }

/-- A 500 response. -/
def serverErrorResponse : HttpResponse :=
  { statusCode := 500, headers := [], bodyRead := .ok "boom" }

/-- Environment whose transport always answers 500. -/
def env500 : Env :=
  { username := "user", apiKey := "key", host := "http://vaas.local"
    transport := fun _ => .ok serverErrorResponse
    decodeDirectorList := fun _ => .error "unused"
    decodeDCList := fun _ => .error "unused"
    decodeBackendList := fun _ => .error "unused"
    decodeBackend := fun _ b => .ok b }

/-- C3: when the server answers `DeleteBackend`'s request with 404 the
call succeeds (idempotent delete); with any other non-2xx status it
returns the API error propagated from the shared response helper,
carrying the request URL, status and body. -/
theorem deleteBackend_idempotent_on_404 (env : Env) (id : Int) (response : HttpResponse)
    (h : env.transport (deleteBackendRequest env id) = .ok response) :
    (response.statusCode = 404 → DeleteBackend env id = none) ∧
    (response.statusCode ≠ 404 →
      response.statusCode < 200 ∨ response.statusCode > 299 →
      DeleteBackend env id = some (.apiError (deleteBackendRequest env id).url
        response.statusCode (bodyMessage response))) := by
  constructor
  · intro h404
    have hif : response.statusCode < 200 ∨ response.statusCode > 299 := by omega
    simp only [DeleteBackend, doReq, h, if_pos hif]
    rw [if_pos (by simp [h404])]
  · intro hne hout
    simp only [DeleteBackend, doReq, h, if_pos hout]
    rw [if_neg (by simp [hne])]

/-- C3 witness: deleting id 5 against a server answering 404 succeeds;
against a server answering 500 the propagated API error is returned. -/
theorem deleteBackend_idempotent_on_404_witness :
    DeleteBackend env404 5 = none ∧
    DeleteBackend env500 5 = some (.apiError (deleteBackendRequest env500 5).url
      serverErrorResponse.statusCode (bodyMessage serverErrorResponse)) :=
  ⟨(deleteBackend_idempotent_on_404 env404 5 notFoundResponse rfl).1 rfl,
   (deleteBackend_idempotent_on_404 env500 5 serverErrorResponse rfl).2
     (by decide) (by decide)⟩

/-- A bare request used to exercise the shared response helper. -/
def sampleRequest : HttpRequest :=
  { method := "GET", url := "http://vaas.local/api/v0.1/dc/",
    query := [], headers := [], body := none }

/-- Environment whose transport always answers 200. -/
def env200 : Env :=
  { username := "user", apiKey := "key", host := "http://vaas.local"
    transport := fun _ => .ok listingResponse
    decodeDirectorList := fun _ => .error "unused"
    decodeDCList := fun _ => .error "unused"
    decodeBackendList := fun _ => .error "unused"
    decodeBackend := fun _ b => .ok b }

/-- C8: for any request that obtains a response, the shared helper
treats it as successful (response passed through, no error) exactly
when the status is in 200–299; for any status outside that range it
returns an error whose rendered message contains the request URL, the
status code, and the body text (or the read-failure note — both cases
are folded into `bodyMessage`). -/
theorem do_success_iff_2xx (env : Env) (request : HttpRequest) (response : HttpResponse)
    (h : env.transport request = .ok response) :
    ((200 ≤ response.statusCode ∧ response.statusCode ≤ 299) ↔
      doReq env request = (some response, none)) ∧
    (¬(200 ≤ response.statusCode ∧ response.statusCode ≤ 299) →
      doReq env request = (some response,
        some (.apiError request.url response.statusCode (bodyMessage response))) ∧
      strContains (VErr.render (.apiError request.url response.statusCode
        (bodyMessage response))) request.url ∧
      strContains (VErr.render (.apiError request.url response.statusCode
        (bodyMessage response))) (toString response.statusCode) ∧
      strContains (VErr.render (.apiError request.url response.statusCode
        (bodyMessage response))) (bodyMessage response)) := by
  constructor
  · constructor
    · intro h2
      simp only [doReq, h, if_neg (show ¬(response.statusCode < 200 ∨ response.statusCode > 299) by omega)]
    · intro heq
      by_contra hno
      have hif : response.statusCode < 200 ∨ response.statusCode > 299 := by omega
      simp only [doReq, h, if_pos hif] at heq
      exact absurd heq (by simp)
  · intro hno
    have hif : response.statusCode < 200 ∨ response.statusCode > 299 := by omega
    refine ⟨by simp only [doReq, h, if_pos hif], ?_, ?_, ?_⟩
    · exact ⟨"VaaS API error at ",
        " (HTTP " ++ toString response.statusCode ++ "): " ++ bodyMessage response,
        by simp [VErr.render, String.append_assoc]⟩
    · exact ⟨"VaaS API error at " ++ request.url ++ " (HTTP ",
        "): " ++ bodyMessage response,
        by simp [VErr.render, String.append_assoc]⟩
    · exact ⟨"VaaS API error at " ++ request.url ++ " (HTTP "
          ++ toString response.statusCode ++ "): ", "",
        by simp [VErr.render, String.append_assoc, String.append_empty]⟩

/-- C8 witness: the helper passes a 200 response through with no error
and turns a 500 response into the formatted API error. -/
theorem do_success_iff_2xx_witness :
    doReq env200 sampleRequest = (some listingResponse, none) ∧
    doReq env500 sampleRequest = (some serverErrorResponse,
      some (.apiError sampleRequest.url serverErrorResponse.statusCode
        (bodyMessage serverErrorResponse))) :=
  ⟨(do_success_iff_2xx env200 sampleRequest listingResponse rfl).1.mp (by decide),
   ((do_success_iff_2xx env500 sampleRequest serverErrorResponse rfl).2 (by decide)).1⟩

/-- A fresh backend as built by the registration hook before creation. -/
def newBackend : Backend :=
  { ID := none, Address := "10.0.0.9", Port := 8081 }

/-- The backend already registered on the server for the same
(address, port). -/
def existingBackend : Backend :=
  { ID := some 9, Address := "10.0.0.9", Port := 8081,
    ResourceURI := "/api/v0.1/backend/9/" }

/-- A 409 response to the create POST. -/
def conflictResponse : HttpResponse :=
  { statusCode := 409, headers := [], bodyRead := .ok "conflict" }

/-- Environment for the fallback-success scenario: the create POST is
answered 409, the fallback GET succeeds and its page holds the existing
backend. -/
def envC1 : Env :=
  { username := "user", apiKey := "key", host := "http://vaas.local"
    transport := fun r => if r.method == "POST" then .ok conflictResponse else .ok listingResponse
    decodeDirectorList := fun _ => .error "unused"
    decodeDCList := fun _ => .error "unused"
    decodeBackendList := fun _ => .ok { Meta := {}, Objects := [existingBackend] }
    decodeBackend := fun _ b => .ok b }

/-- C1: when the create POST obtains a non-2xx response but the
fallback `FindBackend` lookup succeeds, `AddBackend` returns the
located backend's resource locator and no error. -/
theorem addBackend_fallback_returns_found_uri (env : Env) (backend : Backend)
    (director : Director) (response : HttpResponse) (found : Backend)
    (ht : env.transport (addBackendRequest env backend) = .ok response)
    (hs : response.statusCode < 200 ∨ response.statusCode > 299)
    (hf : FindBackend env director backend.Address backend.Port = .ok found) :
    (AddBackend env backend director).1 = .ok found.ResourceURI := by
  have hdo : doRequest env (fun raw => env.decodeBackend raw backend)
      (addBackendRequest env backend) = .error (.apiError (addBackendRequest env backend).url
        response.statusCode (bodyMessage response)) := by
    simp only [doRequest, doReq, ht, if_pos hs]
  simp only [AddBackend, hdo, hf]

/-- C1 witness: with the create POST answered 409 and the fallback page
holding the existing backend, `AddBackend` returns its locator. -/
theorem addBackend_fallback_returns_found_uri_witness :
    (AddBackend envC1 newBackend sampleDirector).1 = .ok existingBackend.ResourceURI :=
  addBackend_fallback_returns_found_uri envC1 newBackend sampleDirector
    conflictResponse existingBackend rfl (by decide) rfl

/-- Environment for the double-failure scenario: the create POST dies
in the transport and the fallback page is empty. -/
def envC2 : Env :=
  { username := "user", apiKey := "key", host := "http://vaas.local"
    transport := fun r => if r.method == "POST" then .error "connection refused"
      else .ok listingResponse
    decodeDirectorList := fun _ => .error "unused"
    decodeDCList := fun _ => .error "unused"
    decodeBackendList := fun _ => .ok { Meta := {}, Objects := [] }
    decodeBackend := fun _ b => .ok b }

/-- C2: when the create round trip fails and the fallback `FindBackend`
lookup also fails, `AddBackend` returns the original creation error,
not the fallback's error. -/
theorem addBackend_double_failure_returns_creation_error (env : Env) (backend : Backend)
    (director : Director) (e e₂ : VErr)
    (hc : doRequest env (fun raw => env.decodeBackend raw backend)
      (addBackendRequest env backend) = .error e)
    (hf : FindBackend env director backend.Address backend.Port = .error e₂) :
    (AddBackend env backend director).1 = .error e := by
  simp only [AddBackend, hc, hf]

/-- C2 witness: with the POST failing in the transport and an empty
fallback page, `AddBackend` returns the transport error of the create,
not the fallback's not-found error. -/
theorem addBackend_double_failure_returns_creation_error_witness :
    (AddBackend envC2 newBackend sampleDirector).1 = .error (.transport "connection refused") :=
  addBackend_double_failure_returns_creation_error envC2 newBackend sampleDirector
    (.transport "connection refused") (.notFound "backend not found") rfl rfl

/-- The response to a successful create POST: 201 with a Location
header and a body that decodes into the server's view of the backend. -/
def createdResponse : HttpResponse :=
  { statusCode := 201,
    headers := [("Location", "http://vaas.local/api/v0.1/backend/42/")],
    bodyRead := .ok "created" }

/-- The backend as returned by the server after creation: identifier
and resource locator populated. -/
def createdBackend : Backend :=
  { newBackend with ID := some 42, ResourceURI := "/api/v0.1/backend/42/" }

/-- Environment for the successful-create scenario. -/
def envC10 : Env :=
  { username := "user", apiKey := "key", host := "http://vaas.local"
    transport := fun _ => .ok createdResponse
    decodeDirectorList := fun _ => .error "unused"
    decodeDCList := fun _ => .error "unused"
    decodeBackendList := fun _ => .error "unused"
    decodeBackend := fun _ b => .ok { b with ID := some 42, ResourceURI := "/api/v0.1/backend/42/" } }

/-- C10: on a successful create (2xx, readable body, body decodes into
the caller's backend), `AddBackend` leaves the caller's backend updated
to the decoded value — the server-populated identifier and resource
locator — and returns the response's `Location` header value. -/
theorem addBackend_success_decodes_and_returns_location (env : Env) (backend : Backend)
    (director : Director) (response : HttpResponse) (raw : String) (updated : Backend)
    (ht : env.transport (addBackendRequest env backend) = .ok response)
    (h2 : 200 ≤ response.statusCode) (h3 : response.statusCode ≤ 299)
    (hr : response.bodyRead = .ok raw)
    (hd : env.decodeBackend raw backend = .ok updated) :
    AddBackend env backend director =
      (.ok (headerGet response.headers "Location"), updated) := by
  have hdo : doRequest env (fun raw => env.decodeBackend raw backend)
      (addBackendRequest env backend) = .ok (response, updated) := by
    simp only [doRequest, doReq, ht,
      if_neg (show ¬(response.statusCode < 200 ∨ response.statusCode > 299) by omega), hr, hd]
  simp only [AddBackend, hdo]

/-- C10 witness: a 201 create answer with a Location header yields that
header's value and the decoded backend with ID 42 populated. -/
theorem addBackend_success_decodes_and_returns_location_witness :
    AddBackend envC10 newBackend sampleDirector =
      (.ok "http://vaas.local/api/v0.1/backend/42/", createdBackend) :=
  addBackend_success_decodes_and_returns_location envC10 newBackend sampleDirector
    createdResponse "created" createdBackend rfl (by decide) (by decide) rfl rfl

/-- A backend record whose optional identifier is absent (a nil `*int`
in the Go struct). -/
def backendNoID : Backend :=
  { ID := none, Address := "10.0.0.1", Port := 8080,
    ResourceURI := "/api/v0.1/backend/77/" }

/-- Environment in which the director lookup and the backend lookup
both succeed but the located backend carries no identifier. -/
def envC9 : Env :=
  { username := "user", apiKey := "key", host := "http://vaas.local"
    transport := fun _ => .ok listingResponse
    decodeDirectorList := fun _ => .ok { Meta := {}, Objects := [sampleDirector] }
    decodeDCList := fun _ => .error "unused"
    decodeBackendList := fun _ => .ok { Meta := {}, Objects := [backendNoID] }
    decodeBackend := fun _ b => .ok b }

/-- C9: when `FindBackendID`'s two lookups succeed, it dereferences the
located backend's optional identifier: it panics (nil-pointer
dereference) when the identifier is absent, and returns the identifier
— total — exactly when it is present. -/
theorem findBackendID_panics_on_nil_id (env : Env) (director address : String)
    (port : Int) (directorFound : Director) (backend : Backend)
    (hd : FindDirector env director = .ok directorFound)
    (hb : FindBackend env directorFound address port = .ok backend) :
    (backend.ID = none → FindBackendID env director address port = .panic nilDerefMsg) ∧
    (∀ i, backend.ID = some i → FindBackendID env director address port = .ok i) := by
  constructor
  · intro hnil
    simp only [FindBackendID, hd, hb, hnil]
  · intro i hsome
    simp only [FindBackendID, hd, hb, hsome]

/-- C9 witness: a located backend whose identifier is absent makes
`FindBackendID` panic with the Go nil-dereference message. -/
theorem findBackendID_panics_on_nil_id_witness :
    FindBackendID envC9 "alpha" "10.0.0.1" 8080 = .panic nilDerefMsg :=
  (findBackendID_panics_on_nil_id envC9 "alpha" "10.0.0.1" 8080
    sampleDirector backendNoID rfl rfl).1 rfl

end Vaas
